import Mathlib

/-!
Verification of the LED pattern controller of mce-plugin-libhybris
(src/hybris.c) against its natural-language specification.

The C code is shallowly embedded: C `int` becomes `Int`, C integer
division (which truncates toward zero) becomes `Int.tdiv`, the mutable
process-wide globals (`led_ctrl_curr`, `led_ctrl_breathe`, the timer
ids, `reset_blinking`) become fields of an explicit state record
`LedState`, and the glib timer callbacks become pure state transformers.
Hardware writes are recorded in an append-only log.  The floating-point
quarter-sine sample values written into `led_ctrl_breathe.value[]` are
not modeled (floating point); only the number of samples produced by the
two generator loops and the per-step delay are, which is what the claims
about the Ramp Synthesizer quantify over.
-/


/- Embedded definitions ---------------------------------------- -/

/-- Questimate of the duration of the kernel delayed work, ms. -/
def LED_CTRL_KERNEL_DELAY : Int := 10

/-- Minimum delay between breathing steps, ms. -/
def LED_CTRL_BREATHING_DELAY : Int := 20

/-- Maximum number of breathing steps; rise and fall time combined. -/
def LED_CTRL_MAX_STEPS : Int := 256

/-- Minimum number of breathing steps on rise/fall time. -/
def LED_CTRL_MIN_STEPS : Int := 7

/-- Embedding of `led_util_scale_value`: scale value from 0...255 to
0...max range.  C source: `int out = (in * max + 128) / 255;` followed by
`(out < 0) ? 0 : (out < max) ? out : max`.  C division truncates toward
zero, hence `Int.tdiv`. -/
def led_util_scale_value (inv maxv : Int) : Int :=
  let out := Int.tdiv (inv * maxv + 128) 255
  if out < 0 then 0 else if out < maxv then out else maxv

/-- Embedding of `clamp_to_range`: `val <= lo ? lo : val <= hi ? val : hi`. -/
def clamp_to_range (lo hi val : Int) : Int :=
  if val ≤ lo then lo else if val ≤ hi then val else hi

/-- Embedding of `led_request_t`: color, blink timing, brightness level
and the breathe flag. -/
structure led_request_t where
  r : Int
  g : Int
  b : Int
  on_ms : Int
  off_ms : Int
  level : Int
  breathe : Bool
deriving DecidableEq

/-- Embedding of `led_request_has_equal_timing`. -/
def led_request_has_equal_timing (self that : led_request_t) : Bool :=
  decide (self.on_ms = that.on_ms) && decide (self.off_ms = that.off_ms)

/-- Embedding of `led_request_is_equal`: field-wise comparison of all
seven fields. -/
def led_request_is_equal (self that : led_request_t) : Bool :=
  decide (self.r = that.r) && decide (self.g = that.g) &&
  decide (self.b = that.b) && decide (self.on_ms = that.on_ms) &&
  decide (self.off_ms = that.off_ms) && decide (self.level = that.level) &&
  decide (self.breathe = that.breathe)

/-- Embedding of `led_request_has_color`: `r > 0 || g > 0 || b > 0`. -/
def led_request_has_color (self : led_request_t) : Bool :=
  decide (0 < self.r) || decide (0 < self.g) || decide (0 < self.b)

/-- Embedding of `led_request_sanitize`.  `min_period` is
`LED_CTRL_BREATHING_DELAY * LED_CTRL_MIN_STEPS` = 140 ms. -/
def led_request_sanitize (self : led_request_t) : led_request_t :=
  let min_period := LED_CTRL_BREATHING_DELAY * LED_CTRL_MIN_STEPS
  if led_request_has_color self = false then
    { self with on_ms := 0, off_ms := 0, breathe := false }
  else if self.on_ms ≤ 0 ∨ self.off_ms ≤ 0 then
    { self with on_ms := 0, off_ms := 0, breathe := false }
  else if self.on_ms < min_period ∨ self.off_ms < min_period then
    { self with breathe := false }
  else
    self

/-- Embedding of `led_style_t`: the four display styles. -/
inductive led_style_t where
  | STYLE_OFF
  | STYLE_STATIC
  | STYLE_BLINK
  | STYLE_BREATH
deriving DecidableEq

/-- Embedding of `led_request_get_style`. -/
def led_request_get_style (self : led_request_t) : led_style_t :=
  if led_request_has_color self = false then .STYLE_OFF
  else if self.on_ms ≤ 0 ∨ self.off_ms ≤ 0 then .STYLE_STATIC
  else if self.breathe then .STYLE_BREATH
  else .STYLE_BLINK

/-- Embedding of the mutable `led_ctrl_breathe` intensity-curve state:
current step index, number of valid samples, and per-step delay.  The
byte samples themselves (quarter-sine, computed with `sinf`) are not
modeled; `steps` counts exactly the samples the two C loops store. -/
structure led_ctrl_breathe_t where
  step : Nat
  steps : Nat
  delay : Int
deriving DecidableEq

/-- Embedding of `led_ctrl_generate_ramp`.  Every C division here is a
division of `int`s, i.e. `Int.tdiv`.  The two sample loops run
`max steps_on 0` and `max steps_off 0` iterations respectively (a C
`for( int i = 0; i < n; ++i )` loop with negative `n` runs zero times),
so the stored sample count `k` is `steps_on.toNat + steps_off.toNat`.
The `step` index is not touched by the C function. -/
def led_ctrl_generate_ramp (ms_on ms_off : Int)
    (old : led_ctrl_breathe_t) : led_ctrl_breathe_t :=
  let t := ms_on + ms_off
  let s0 := Int.tdiv (t + LED_CTRL_MAX_STEPS - 1) LED_CTRL_MAX_STEPS
  let s := if s0 < LED_CTRL_BREATHING_DELAY then LED_CTRL_BREATHING_DELAY else s0
  let n := Int.tdiv (t + s - 1) s
  let steps_on := Int.tdiv (n * ms_on + Int.tdiv t 2) t
  let steps_off := n - steps_on
  { old with delay := s, steps := steps_on.toNat + steps_off.toNat }

/-- Hardware writes issued through the backend capability.  `stepValue i`
stands for the value write of `led_ctrl_step_cb` scaled by ramp sample
`i` (the sample bytes themselves are floating-point synthesized and out
of scope). -/
inductive HwWrite where
  | blink (ms_on ms_off : Int)
  | value (r g b : Int)
  | stepValue (i : Nat)
deriving DecidableEq

/-- Which callback the shared timer id `led_ctrl_step_id` currently
points at: the recurring breathing step callback `led_ctrl_step_cb` or
the one-shot `led_ctrl_static_cb`. -/
inductive StepTimerKind where
  | breathingStep
  | staticSet
deriving DecidableEq

/-- The controller's mutable globals gathered into one state record:
`led_ctrl_curr`, `led_ctrl_breathe`, the two timer ids (as "armed with
which callback" flags), `reset_blinking`, plus a log of hardware writes. -/
structure LedState where
  curr : led_request_t
  breathe : led_ctrl_breathe_t
  stepTimer : Option StepTimerKind
  stopTimer : Bool
  resetBlinking : Bool
  writes : List HwWrite
deriving DecidableEq

/-- Initial value of the global `led_ctrl_curr`: invalid sentinel color
so that the first change takes effect, not blinking, full brightness. -/
def led_ctrl_curr : led_request_t :=
  { r := -1, g := -1, b := -1, on_ms := 0, off_ms := 0, breathe := false, level := 255 }

/-- Initial controller state: `led_ctrl_breathe` zeroed, no timers
pending, `reset_blinking = true` (its C initializer). -/
def initialLedState : LedState :=
  { curr := led_ctrl_curr
  , breathe := { step := 0, steps := 0, delay := 0 }
  , stepTimer := none
  , stopTimer := false
  , resetBlinking := true
  , writes := [] }

/-- Embedding of `led_ctrl_static_cb`: one-shot; writes the blink timing
and the brightness-level-scaled color, and lets its timer id lapse. -/
def led_ctrl_static_cb (st : LedState) : LedState :=
  let r := led_util_scale_value st.curr.r st.curr.level
  let g := led_util_scale_value st.curr.g st.curr.level
  let b := led_util_scale_value st.curr.b st.curr.level
  { st with stepTimer := none
          , writes := st.writes ++ [HwWrite.blink st.curr.on_ms st.curr.off_ms,
                                    HwWrite.value r g b] }

/-- Embedding of `led_ctrl_step_cb`: wraps the step index when it has
reached the sample count, reads sample `i`, advances the index, writes
the scaled color, and stays armed.  Returns the index of the sample that
was read. -/
def led_ctrl_step_cb (st : LedState) : LedState × Option Nat :=
  let i := if st.breathe.step ≥ st.breathe.steps then 0 else st.breathe.step
  ({ st with breathe := { st.breathe with step := i + 1 }
           , writes := st.writes ++ [HwWrite.stepValue i] }, some i)

/-- Embedding of `led_ctrl_stop_cb`: clears the settle timer, optionally
writes blink-off, then either prepares the off write (no color), arms
the breathing step timer (ramp delay set), or arms the one-shot static
timer; finally writes black when the reset-blinking flag is set. -/
def led_ctrl_stop_cb (st0 : LedState) : LedState :=
  if st0.stopTimer = false then st0 else
  let st1 := { st0 with stopTimer := false }
  let st2 := if st1.resetBlinking
             then { st1 with writes := st1.writes ++ [HwWrite.blink 0 0] }
             else st1
  let st3 :=
    if led_request_has_color st2.curr = false then
      { st2 with resetBlinking := true }
    else if 0 < st2.breathe.delay then
      { st2 with stepTimer := some StepTimerKind.breathingStep }
    else
      { st2 with stepTimer := some StepTimerKind.staticSet }
  if st3.resetBlinking
  then { st3 with writes := st3.writes ++ [HwWrite.value 0 0 0]
                , resetBlinking := false }
  else st3

/-- Dispatch of a fire of the shared `led_ctrl_step_id` timer: runs the
callback it is armed with (if any) and reports the ramp sample index
read, when one was. -/
def fire_step_timer (st : LedState) : LedState × Option Nat :=
  match st.stepTimer with
  | none => (st, none)
  | some StepTimerKind.staticSet => (led_ctrl_static_cb st, none)
  | some StepTimerKind.breathingStep => led_ctrl_step_cb st

/-- Embedding of `led_ctrl_start`: sanitize, no-op on equality, decide
`restart` (false exactly when both old and new style are BREATH with
equal timing), replace `led_ctrl_curr`, and on restart cancel the step
timer, reset the ramp delay, regenerate the ramp when entering BREATH,
and arm the settle (stop) timer unless one is already pending. -/
def led_ctrl_start (next : led_request_t) (st : LedState) : LedState :=
  let work := led_request_sanitize next
  if led_request_is_equal st.curr work then st else
  let old_style := led_request_get_style st.curr
  let new_style := led_request_get_style work
  if old_style = led_style_t.STYLE_BREATH ∧ new_style = led_style_t.STYLE_BREATH ∧
     led_request_has_equal_timing st.curr work = true then
    { st with curr := work }
  else
    let st2 : LedState := { st with curr := work, stepTimer := none }
    let ramp0 := { st2.breathe with delay := 0 }
    let ramp1 := if new_style = led_style_t.STYLE_BREATH
                 then led_ctrl_generate_ramp work.on_ms work.off_ms ramp0
                 else ramp0
    let st3 := { st2 with breathe := ramp1 }
    if st3.stopTimer then st3
    else { st3 with
           resetBlinking := decide (old_style = led_style_t.STYLE_BLINK) ||
                            decide (new_style = led_style_t.STYLE_BLINK)
         , stopTimer := true }

/-- Embedding of `mce_hybris_indicator_set_pattern`, sysfs-backend path
(`led_ctrl_uses_sysfs` true): clamp the timings to [0, 60000], force
both to 0 when either is below 50 ms, clamp the colors to [0, 255],
adjust the current state and submit it; acknowledge with true. -/
def mce_hybris_indicator_set_pattern (r g b ms_on ms_off : Int)
    (st : LedState) : Bool × LedState :=
  let ms_on1 := clamp_to_range 0 60000 ms_on
  let ms_off1 := clamp_to_range 0 60000 ms_off
  let ms_on2 := if ms_on1 < 50 ∨ ms_off1 < 50 then 0 else ms_on1
  let ms_off2 := if ms_on1 < 50 ∨ ms_off1 < 50 then 0 else ms_off1
  let r1 := clamp_to_range 0 255 r
  let g1 := clamp_to_range 0 255 g
  let b1 := clamp_to_range 0 255 b
  let req := { st.curr with r := r1, g := g1, b := b1, on_ms := ms_on2, off_ms := ms_off2 }
  (true, led_ctrl_start req st)

/-- Embedding of `mce_hybris_indicator_enable_breathing`, sysfs path:
resubmit the current target with the breathe flag changed. -/
def mce_hybris_indicator_enable_breathing (enable : Bool) (st : LedState) : LedState :=
  led_ctrl_start { st.curr with breathe := enable } st

/-- Embedding of `mce_hybris_indicator_set_brightness`, sysfs path:
clamp the level to [1, 255] and resubmit with only that field changed. -/
def mce_hybris_indicator_set_brightness (level : Int) (st : LedState) : LedState :=
  led_ctrl_start { st.curr with level := clamp_to_range 1 255 level } st

/-- A controller operation: a request submission through
`led_ctrl_start` (this subsumes every public entry point, each of which
builds a request and calls `led_ctrl_start`), a settle-timer fire, or a
fire of the shared step/static timer. -/
inductive LedOp where
  | submit (req : led_request_t)
  | stopTimerFire
  | stepTimerFire

/-- One controller step. -/
def ledStep (op : LedOp) (st : LedState) : LedState :=
  match op with
  | .submit req => led_ctrl_start req st
  | .stopTimerFire => led_ctrl_stop_cb st
  | .stepTimerFire => (fire_step_timer st).1

/-- Run a list of operations in order. -/
def runOps (st : LedState) : List LedOp → LedState
  | [] => st
  | op :: ops => runOps (ledStep op st) ops

/-- States reachable from the initial state by controller operations. -/
inductive Reachable : LedState → Prop where
  | init : Reachable initialLedState
  | step (op : LedOp) {st : LedState} : Reachable st → Reachable (ledStep op st)

/-- Mathematical ceiling of `a / b` for `b > 0`, written through floor
division as `-((-a) / b)` (Lean's `/` on `Int` is floor division for a
positive divisor). -/
def ceil_div (a b : Int) : Int := -((-a) / b)

/-- Round `a / b` to the nearest integer for `b > 0`, as the spec's
`round`: `⌊(2a + b) / (2b)⌋`.  An exact tie (rounded upward here) can
only occur when `b` is even. -/
def round_div (a b : Int) : Int := (2 * a + b) / (2 * b)

/-- Sanitization exactly as the specification words it: an all-black
color clears the timing and the breathe flag; else a non-positive
half-period clears both timings and the flag; else a half-period below
140 ms (20 ms times 7 steps) clears only the breathe flag; otherwise
nothing changes. -/
def led_request_sanitize_spec (x : led_request_t) : led_request_t :=
  if x.r ≤ 0 ∧ x.g ≤ 0 ∧ x.b ≤ 0 then
    { x with on_ms := 0, off_ms := 0, breathe := false }
  else if x.on_ms ≤ 0 ∨ x.off_ms ≤ 0 then
    { x with on_ms := 0, off_ms := 0, breathe := false }
  else if x.on_ms < 140 ∨ x.off_ms < 140 then
    { x with breathe := false }
  else
    x

/-- Channel scaling as the specification words it:
`clamp(round(value * max / 255), 0, max)`. -/
def led_util_scale_value_spec (inv maxv : Int) : Int :=
  max 0 (min maxv (round_div (inv * maxv) 255))

/-- Ramp-table health: whenever the ramp delay is positive (breathing
configured) or the breathing step callback is armed, the stored sample
count is between 1 and 256. -/
def RampOk (st : LedState) : Prop :=
  (0 < st.breathe.delay → 1 ≤ st.breathe.steps ∧ st.breathe.steps ≤ 256) ∧
  (st.stepTimer = some StepTimerKind.breathingStep →
    1 ≤ st.breathe.steps ∧ st.breathe.steps ≤ 256)

def breatheReq1000 : led_request_t :=
  { r := 255, g := 0, b := 0, on_ms := 1000, off_ms := 1000, level := 255, breathe := true }

def breatheReq140 : led_request_t :=
  { r := 255, g := 0, b := 0, on_ms := 140, off_ms := 140, level := 255, breathe := true }

/-- Reachable state with the breathing step timer armed on a 100-sample
ramp (submit a 1000/1000 breathing request, let the settle timer fire). -/
def armedBreathingState : LedState :=
  runOps initialLedState [LedOp.submit breatheReq1000, LedOp.stopTimerFire]

/-- Reachable state right after 15 breathing steps on the 100-sample ramp
followed by a restart onto a 140/140 breathing request whose regenerated
ramp has only 14 samples: the stored step index 15 exceeds the stored
sample count 14. -/
def staleIndexState : LedState :=
  runOps armedBreathingState (List.replicate 15 LedOp.stepTimerFire ++ [LedOp.submit breatheReq140])


/- Helper lemmas ----------------------------------------------- -/

/-- Field-wise equality of requests coincides with equality. -/
lemma led_request_is_equal_iff (a b : led_request_t) :
    led_request_is_equal a b = true ↔ a = b := by
  cases a; cases b
  simp only [led_request_is_equal, led_request_t.mk.injEq, Bool.and_eq_true,
    decide_eq_true_eq]
  tauto

/-- Having no color means all three channels are non-positive. -/
lemma led_request_has_color_false_iff (x : led_request_t) :
    led_request_has_color x = false ↔ x.r ≤ 0 ∧ x.g ≤ 0 ∧ x.b ≤ 0 := by
  simp only [led_request_has_color, Bool.or_eq_false_iff, decide_eq_false_iff_not]
  omega

/-- Having color means some channel is positive. -/
lemma led_request_has_color_true_iff (x : led_request_t) :
    led_request_has_color x = true ↔ (0 < x.r ∨ 0 < x.g ∨ 0 < x.b) := by
  simp only [led_request_has_color, Bool.or_eq_true, decide_eq_true_eq]
  tauto

/-- Sanitization never modifies the color channels or the brightness
level. -/
lemma sanitize_preserves_rgb_level (x : led_request_t) :
    (led_request_sanitize x).r = x.r ∧ (led_request_sanitize x).g = x.g ∧
    (led_request_sanitize x).b = x.b ∧ (led_request_sanitize x).level = x.level := by
  refine ⟨?_, ?_, ?_, ?_⟩ <;> (simp only [led_request_sanitize]; split_ifs <;> rfl)

/-- Idempotence and normalization facts about sanitization. -/
lemma sanitize_props (req : led_request_t) :
    led_request_sanitize (led_request_sanitize req) = led_request_sanitize req ∧
    (0 < (led_request_sanitize req).on_ms ↔ 0 < (led_request_sanitize req).off_ms) ∧
    ((led_request_sanitize req).breathe = true →
      140 ≤ (led_request_sanitize req).on_ms ∧ 140 ≤ (led_request_sanitize req).off_ms) := by
  simp only [led_request_sanitize, led_request_has_color_false_iff,
    LED_CTRL_BREATHING_DELAY, LED_CTRL_MIN_STEPS]
  norm_num
  split_ifs <;> simp_all

/-- A sanitized request classified as BREATH has both half-periods of at
least 140 ms. -/
lemma sanitize_breath_bounds (x : led_request_t)
    (h : led_request_get_style (led_request_sanitize x) = led_style_t.STYLE_BREATH) :
    140 ≤ (led_request_sanitize x).on_ms ∧ 140 ≤ (led_request_sanitize x).off_ms := by
  have hb : (led_request_sanitize x).breathe = true := by
    unfold led_request_get_style at h
    split_ifs at h <;> simp_all
  exact (sanitize_props x).2.2 hb

/-- A non-equal submission always installs the sanitized request as the
new current pattern state, in every branch of `led_ctrl_start`. -/
lemma led_ctrl_start_curr (next : led_request_t) (st : LedState)
    (h : led_request_is_equal st.curr (led_request_sanitize next) = false) :
    (led_ctrl_start next st).curr = led_request_sanitize next := by
  unfold led_ctrl_start
  simp only [h]
  split_ifs <;> simp_all

/-- An equal submission leaves the state untouched. -/
lemma led_ctrl_start_noop (next : led_request_t) (st : LedState)
    (h : led_request_is_equal st.curr (led_request_sanitize next) = true) :
    led_ctrl_start next st = st := by
  unfold led_ctrl_start
  simp [h]

/-- The C conditional clamp coincides with the mathematical clamp into
`[lo, hi]` when `lo ≤ hi`. -/
lemma clamp_to_range_eq (lo hi v : Int) (h : lo ≤ hi) :
    clamp_to_range lo hi v = max lo (min hi v) := by
  unfold clamp_to_range
  split_ifs <;> omega

/-- Euclidean division is determined by any decomposition with a
remainder in `[0, b)`. -/
lemma ediv_eq_of_spec (a b q r : Int) (hb : 0 < b) (h : a = b * q + r)
    (h0 : 0 ≤ r) (h1 : r < b) : a / b = q :=
  ((Int.ediv_emod_unique hb).mpr ⟨by linear_combination -h, h0, h1⟩).1

lemma generate_ramp_facts (ms_on ms_off : Int) (old : led_ctrl_breathe_t)
    (h1 : 0 ≤ ms_on) (h2 : 0 ≤ ms_off) (h3 : 0 < ms_on + ms_off) :
    (led_ctrl_generate_ramp ms_on ms_off old).delay
      = max (ceil_div (ms_on + ms_off) 256) 20 ∧
    ((led_ctrl_generate_ramp ms_on ms_off old).steps : Int)
      = ceil_div (ms_on + ms_off) (max (ceil_div (ms_on + ms_off) 256) 20) ∧
    (led_ctrl_generate_ramp ms_on ms_off old).steps ≤ 256 ∧
    1 ≤ (led_ctrl_generate_ramp ms_on ms_off old).steps ∧
    (led_ctrl_generate_ramp ms_on ms_off old).step = old.step ∧
    Int.tdiv ((ceil_div (ms_on + ms_off) (max (ceil_div (ms_on + ms_off) 256) 20)) * ms_on
        + Int.tdiv (ms_on + ms_off) 2) (ms_on + ms_off)
      = round_div ((ceil_div (ms_on + ms_off) (max (ceil_div (ms_on + ms_off) 256) 20)) * ms_on)
          (ms_on + ms_off) := by
  set t := ms_on + ms_off with htdef
  have ht1 : 1 ≤ t := h3
  have hthalf : Int.tdiv t 2 = t / 2 := Int.tdiv_eq_ediv (by omega) (by omega)
  have hpar0 : 0 ≤ t - 2 * (t / 2) := by omega
  have hpar1 : t - 2 * (t / 2) ≤ 1 := by omega
  have hhalf0 : 0 ≤ t / 2 := by omega
  have hhalf1 : t / 2 ≤ t - 1 := by omega
  -- the target step delay: ceiling of t/256, floored to 20
  have hs0 : Int.tdiv (t + LED_CTRL_MAX_STEPS - 1) LED_CTRL_MAX_STEPS = ceil_div t 256 := by
    simp only [LED_CTRL_MAX_STEPS]
    rw [Int.tdiv_eq_ediv (by omega) (by omega)]
    unfold ceil_div
    omega
  have hmax : (if ceil_div t 256 < LED_CTRL_BREATHING_DELAY then LED_CTRL_BREATHING_DELAY
               else ceil_div t 256) = max (ceil_div t 256) 20 := by
    simp only [LED_CTRL_BREATHING_DELAY]
    split_ifs <;> omega
  set s := max (ceil_div t 256) 20 with hsdef
  have hs20 : 20 ≤ s := le_max_right _ _
  have hs_pos : 0 < s := by omega
  have hts : t ≤ 256 * s := by
    have hc : t ≤ 256 * ceil_div t 256 := by unfold ceil_div; omega
    have hc2 : ceil_div t 256 ≤ s := le_max_left _ _
    omega
  -- the step count: ceiling of t/s
  obtain ⟨k, u, hk, hu0, hu1⟩ : ∃ k u, t = s * k + u ∧ 0 ≤ u ∧ u < s :=
    ⟨t / s, t % s, (Int.ediv_add_emod t s).symm,
     Int.emod_nonneg t (by omega), Int.emod_lt_of_pos t hs_pos⟩
  have hnediv : Int.tdiv (t + s - 1) s = ceil_div t s := by
    rw [Int.tdiv_eq_ediv (by omega) (by omega)]
    unfold ceil_div
    rcases eq_or_lt_of_le hu0 with hu | hu
    · obtain rfl : u = 0 := hu.symm
      have ha : (t + s - 1) / s = k :=
        ediv_eq_of_spec _ s k (s - 1) hs_pos (by linear_combination hk) (by omega) (by omega)
      have hb : (-t) / s = -k :=
        ediv_eq_of_spec _ s (-k) 0 hs_pos (by linear_combination -hk) le_rfl hs_pos
      rw [ha, hb]; ring
    · have ha : (t + s - 1) / s = k + 1 :=
        ediv_eq_of_spec _ s (k + 1) (u - 1) hs_pos (by linear_combination hk) (by omega) (by omega)
      have hb : (-t) / s = -k - 1 :=
        ediv_eq_of_spec _ s (-k - 1) (s - u) hs_pos (by linear_combination -hk) (by omega) (by omega)
      rw [ha, hb]; ring
  set n := ceil_div t s with hndef
  -- bounds on the step count
  have hn_eq : n = Int.tdiv (t + s - 1) s := hnediv.symm
  have hn_lb : 1 ≤ n := by
    rw [hn_eq, Int.tdiv_eq_ediv (by omega) (by omega)]
    rw [Int.le_ediv_iff_mul_le hs_pos]
    omega
  have hn_ub : n ≤ 256 := by
    rw [hn_eq, Int.tdiv_eq_ediv (by omega) (by omega)]
    calc (t + s - 1) / s ≤ ((s - 1) + s * 256) / s :=
          Int.ediv_le_ediv hs_pos (by linarith)
      _ = (s - 1) / s + 256 := Int.add_mul_ediv_left _ _ (by omega)
      _ = 0 + 256 := by rw [Int.ediv_eq_zero_of_lt (by omega) (by omega)]
      _ = 256 := by ring
  -- the rounded steps_on share
  have ha_nonneg : 0 ≤ n * ms_on := mul_nonneg (by omega) h1
  have hkey : n * ms_on + t / 2 ≤ t * n + t - 1 := by
    have hm : n * ms_on ≤ n * t := mul_le_mul_of_nonneg_left (by omega) (by omega)
    have hc : n * t = t * n := mul_comm n t
    linarith
  obtain ⟨q1, r1, he, he0, he1⟩ :
      ∃ q r, n * ms_on + t / 2 = t * q + r ∧ 0 ≤ r ∧ r < t :=
    ⟨_, _, (Int.ediv_add_emod (n * ms_on + t / 2) t).symm,
     Int.emod_nonneg _ (by omega), Int.emod_lt_of_pos _ (by omega)⟩
  have hson_tdiv : Int.tdiv (n * ms_on + Int.tdiv t 2) t = q1 := by
    rw [hthalf, Int.tdiv_eq_ediv (by omega) (by omega)]
    exact ediv_eq_of_spec _ t q1 r1 (by omega) he he0 he1
  have hson_round : round_div (n * ms_on) t = q1 := by
    unfold round_div
    exact ediv_eq_of_spec _ (2 * t) q1 (2 * r1 + (t - 2 * (t / 2))) (by omega)
      (by linear_combination 2 * he) (by omega) (by omega)
  have hson0 : 0 ≤ q1 := by
    by_contra hq1
    push_neg at hq1
    have hmul : t * q1 ≤ t * (-1) := mul_le_mul_of_nonneg_left (by omega) (by omega)
    linarith
  have hsonle : q1 ≤ n := by
    by_contra hq1
    push_neg at hq1
    have hmul : t * (n + 1) ≤ t * q1 := mul_le_mul_of_nonneg_left (by omega) (by omega)
    linarith
  -- assemble
  have hson_final :
      Int.tdiv (n * ms_on + Int.tdiv t 2) t = round_div (n * ms_on) t := by
    rw [hson_tdiv, hson_round]
  have hgen : led_ctrl_generate_ramp ms_on ms_off old =
      { old with delay := s
               , steps := (round_div (n * ms_on) t).toNat + (n - round_div (n * ms_on) t).toNat } := by
    simp only [led_ctrl_generate_ramp]
    rw [hs0, hmax, hnediv, hson_final]
  rw [hgen]
  refine ⟨rfl, ?_, ?_, ?_, rfl, hson_final⟩
  · simp only [hson_round]
    push_cast [Int.toNat_of_nonneg hson0, Int.toNat_of_nonneg (by omega : 0 ≤ n - q1)]
    ring
  · simp only [hson_round]
    omega
  · simp only [hson_round]
    omega

/-- Bounds on a regenerated ramp for valid breathing timings. -/
lemma generate_ramp_invariant (ms_on ms_off : Int) (old : led_ctrl_breathe_t)
    (h1 : 1 ≤ ms_on) (h2 : 1 ≤ ms_off) :
    0 < (led_ctrl_generate_ramp ms_on ms_off old).delay ∧
    1 ≤ (led_ctrl_generate_ramp ms_on ms_off old).steps ∧
    (led_ctrl_generate_ramp ms_on ms_off old).steps ≤ 256 := by
  obtain ⟨hd, hn, hle, hge, hstep, hson⟩ :=
    generate_ramp_facts ms_on ms_off old (by omega) (by omega) (by omega)
  refine ⟨?_, hge, hle⟩
  rw [hd]
  have := le_max_right (ceil_div (ms_on + ms_off) 256) 20
  omega

lemma rampOk_init : RampOk initialLedState := by
  constructor <;> intro h <;> simp [initialLedState] at h

lemma rampOk_start (req : led_request_t) (st : LedState) (h : RampOk st) :
    RampOk (led_ctrl_start req st) := by
  obtain ⟨hd, ht⟩ := h
  simp only [led_ctrl_start]
  split_ifs with h1 h2 h3 h4 h5
  · exact ⟨hd, ht⟩
  · exact ⟨hd, ht⟩
  · -- restart entering BREATH while the stop timer is already pending
    obtain ⟨hon, hoff⟩ := sanitize_breath_bounds req h4
    have hg := generate_ramp_invariant (led_request_sanitize req).on_ms
      (led_request_sanitize req).off_ms { st.breathe with delay := 0 } (by omega) (by omega)
    exact ⟨fun _ => ⟨hg.2.1, hg.2.2⟩, fun hx => by simp at hx⟩
  · -- restart to a non-breathing style, stop timer already pending
    exact ⟨fun h0 => by simp at h0, fun hx => by simp at hx⟩
  · -- restart entering BREATH, arming the stop timer
    obtain ⟨hon, hoff⟩ := sanitize_breath_bounds req h5
    have hg := generate_ramp_invariant (led_request_sanitize req).on_ms
      (led_request_sanitize req).off_ms { st.breathe with delay := 0 } (by omega) (by omega)
    exact ⟨fun _ => ⟨hg.2.1, hg.2.2⟩, fun hx => by simp at hx⟩
  · -- restart to a non-breathing style, arming the stop timer
    exact ⟨fun h0 => by simp at h0, fun hx => by simp at hx⟩

lemma rampOk_stop (st : LedState) (h : RampOk st) : RampOk (led_ctrl_stop_cb st) := by
  obtain ⟨hd, ht⟩ := h
  simp only [led_ctrl_stop_cb]
  split_ifs <;>
    first
      | exact ⟨hd, ht⟩
      | exact ⟨fun hx => hd hx, fun _ => hd (by assumption)⟩
      | exact ⟨fun hx => hd hx, by simp⟩

lemma rampOk_fire (st : LedState) (h : RampOk st) : RampOk (fire_step_timer st).1 := by
  obtain ⟨hd, ht⟩ := h
  unfold fire_step_timer
  rcases hst : st.stepTimer with _ | k
  · exact ⟨hd, ht⟩
  · cases k
    · exact ⟨fun hx => ht hst, fun hx => ht hst⟩
    · exact ⟨fun hx => hd hx, by simp [led_ctrl_static_cb]⟩

lemma reachable_rampOk (st : LedState) (h : Reachable st) : RampOk st := by
  induction h with
  | init => exact rampOk_init
  | step op h ih =>
    cases op with
    | submit req => exact rampOk_start req _ ih
    | stopTimerFire => exact rampOk_stop _ ih
    | stepTimerFire => exact rampOk_fire _ ih

/-- Any prefix of controller operations keeps the state reachable. -/
lemma runOps_reachable (ops : List LedOp) (st : LedState) (h : Reachable st) :
    Reachable (runOps st ops) := by
  induction ops generalizing st with
  | nil => exact h
  | cons op ops ih => exact ih _ (Reachable.step op h)


/- Claims ------------------------------------------------------ -/

/-- C1: when the current pattern state's style and the sanitized new
request's style are both BREATHE and their on/off timings are equal
field-wise, `led_ctrl_start` takes the `restart = false` path: the
pending step timer is not cancelled, the ramp table (delay, sample
count, step index) is neither regenerated nor reset, no settle (stop)
timer is armed, and only the current pattern state is replaced by the
sanitized request. -/
theorem c1_breathing_continuation (st : LedState) (next : led_request_t)
    (h1 : led_request_get_style st.curr = led_style_t.STYLE_BREATH)
    (h2 : led_request_get_style (led_request_sanitize next) = led_style_t.STYLE_BREATH)
    (h3 : led_request_has_equal_timing st.curr (led_request_sanitize next) = true) :
    led_ctrl_start next st = { st with curr := led_request_sanitize next } := by
  by_cases he : led_request_is_equal st.curr (led_request_sanitize next) = true
  · have hcur : st.curr = led_request_sanitize next :=
      (led_request_is_equal_iff _ _).mp he
    rw [led_ctrl_start_noop next st he, ← hcur]
  · have hf : led_request_is_equal st.curr (led_request_sanitize next) = false := by
      simpa using he
    unfold led_ctrl_start
    simp only [hf]
    simp [h1, h2, h3]

/-- C1 witness: changing only the color of a running 1000/1000 breathing
pattern replaces just the current pattern state. -/
theorem c1_breathing_continuation_witness :
    led_ctrl_start { breatheReq1000 with g := 255 } { initialLedState with curr := breatheReq1000 }
      = { { initialLedState with curr := breatheReq1000 } with
          curr := led_request_sanitize { breatheReq1000 with g := 255 } } :=
  c1_breathing_continuation _ _ (by decide) (by decide) (by decide)

/-- C2: sanitization applies exactly the specified rules in order (all
channels non-positive clears timing and breathe; else a non-positive
half-period clears both timings and breathe; else a half-period below
140 = 20x7 ms clears only breathe), and it never modifies the color
channels, the brightness level, or - when the color and both
half-periods are positive - the timing. -/
theorem c2_sanitize_rules (req : led_request_t) :
    led_request_sanitize req = led_request_sanitize_spec req ∧
    (led_request_sanitize req).r = req.r ∧
    (led_request_sanitize req).g = req.g ∧
    (led_request_sanitize req).b = req.b ∧
    (led_request_sanitize req).level = req.level ∧
    ((0 < req.r ∨ 0 < req.g ∨ 0 < req.b) → 0 < req.on_ms → 0 < req.off_ms →
      (led_request_sanitize req).on_ms = req.on_ms ∧
      (led_request_sanitize req).off_ms = req.off_ms) := by
  have hc := led_request_has_color_false_iff req
  unfold led_request_sanitize led_request_sanitize_spec
  simp only [LED_CTRL_BREATHING_DELAY, LED_CTRL_MIN_STEPS]
  norm_num
  split_ifs <;> simp_all <;> omega

/-- C2 witness: a colored 140/140 request sanitizes per the spec with
its timing kept. -/
theorem c2_sanitize_rules_witness :
    led_request_sanitize breatheReq140 = led_request_sanitize_spec breatheReq140 ∧
    (led_request_sanitize breatheReq140).on_ms = breatheReq140.on_ms := by
  refine ⟨(c2_sanitize_rules breatheReq140).1, ?_⟩
  exact ((c2_sanitize_rules breatheReq140).2.2.2.2.2 (by decide) (by decide) (by decide)).1

/-- C3 counterexample: the claim quantifies over every `on_ms`, `off_ms`
with positive total, but for `ms_on = -59000`, `ms_off = 60000` (total
1000 > 0) the two generator loops store 2999 samples - more than the
256-entry table holds and different from `ceil(t/s) = 50`. -/
theorem c3_counterexample :
    0 < (-59000 : Int) + 60000 ∧
    256 < (led_ctrl_generate_ramp (-59000) 60000 { step := 0, steps := 0, delay := 0 }).steps ∧
    ((led_ctrl_generate_ramp (-59000) 60000 { step := 0, steps := 0, delay := 0 }).steps : Int)
      ≠ ceil_div ((-59000 : Int) + 60000)
          ((led_ctrl_generate_ramp (-59000) 60000 { step := 0, steps := 0, delay := 0 }).delay) := by
  refine ⟨by norm_num, by decide, by decide⟩

/-- C3 (amended: additionally requiring `0 ≤ on_ms` and `0 ≤ off_ms`,
as negative arguments break the sample count): the ramp synthesizer
stores delay `s = max(ceil(t/256), 20)`, stores exactly
`n = ceil(t/s) ≤ 256` samples, and the `steps_on` share it computes as
`(n * on_ms + t/2) / t` is the round-to-nearest value of
`n * on_ms / t`. -/
theorem c3_ramp_synthesis (ms_on ms_off : Int) (old : led_ctrl_breathe_t)
    (h1 : 0 ≤ ms_on) (h2 : 0 ≤ ms_off) (h3 : 0 < ms_on + ms_off) :
    (led_ctrl_generate_ramp ms_on ms_off old).delay
      = max (ceil_div (ms_on + ms_off) 256) 20 ∧
    ((led_ctrl_generate_ramp ms_on ms_off old).steps : Int)
      = ceil_div (ms_on + ms_off) ((led_ctrl_generate_ramp ms_on ms_off old).delay) ∧
    (led_ctrl_generate_ramp ms_on ms_off old).steps ≤ 256 ∧
    Int.tdiv (ceil_div (ms_on + ms_off) ((led_ctrl_generate_ramp ms_on ms_off old).delay) * ms_on
        + Int.tdiv (ms_on + ms_off) 2) (ms_on + ms_off)
      = round_div (ceil_div (ms_on + ms_off) ((led_ctrl_generate_ramp ms_on ms_off old).delay) * ms_on)
          (ms_on + ms_off) := by
  obtain ⟨hd, hn, hle, hge, hstep, hson⟩ := generate_ramp_facts ms_on ms_off old h1 h2 h3
  rw [hd]
  exact ⟨rfl, hn, hle, hson⟩

/-- C3 witness: for `on_ms = off_ms = 1000` the stored delay is 20 and
the sample count fits the table. -/
theorem c3_ramp_synthesis_witness :
    (led_ctrl_generate_ramp 1000 1000 { step := 0, steps := 0, delay := 0 }).delay = 20 ∧
    (led_ctrl_generate_ramp 1000 1000 { step := 0, steps := 0, delay := 0 }).steps ≤ 256 := by
  have h := c3_ramp_synthesis 1000 1000 { step := 0, steps := 0, delay := 0 }
    (by norm_num) (by norm_num) (by norm_num)
  exact ⟨h.1.trans (by decide), h.2.2.1⟩

/-- C4 counterexample: at `value = 127`, `max = 1` the code returns 1
while `clamp(round(127 * 1 / 255), 0, 1) = 0`: the code's `+128` bias
rounds the fraction `127/255` (just below one half) upward. -/
theorem c4_counterexample :
    led_util_scale_value 127 1 ≠ led_util_scale_value_spec 127 1 := by decide

/-- C4 (amended: for `0 ≤ value`, `0 < max` and `value * max` not
congruent to 127 modulo 255): channel scaling returns
`clamp(round(value * max / 255), 0, max)`.  At the excluded residue the
code returns one more than round-to-nearest. -/
theorem c4_scale_rounding (v m : Int) (h1 : 0 ≤ v) (h2 : 0 < m)
    (h3 : (v * m) % 255 ≠ 127) :
    led_util_scale_value v m = led_util_scale_value_spec v m := by
  have ha : 0 ≤ v * m := mul_nonneg h1 h2.le
  simp only [led_util_scale_value, led_util_scale_value_spec, round_div]
  rw [Int.tdiv_eq_ediv (by omega) (by omega)]
  generalize hga : v * m = a at ha h3 ⊢
  split_ifs <;> omega

/-- C4 witness: scaling 255 against a channel maximum of 100 gives the
rounded clamped value. -/
theorem c4_scale_rounding_witness :
    led_util_scale_value 255 100 = led_util_scale_value_spec 255 100 :=
  c4_scale_rounding 255 100 (by norm_num) (by norm_num) (by decide)

/-- C5: a request whose sanitized form equals the current pattern state
field-wise is a no-op - `led_ctrl_start` leaves the whole controller
state (current pattern state, ramp table, both timers, write log)
unchanged - and hence submitting the same request twice in a row makes
the second call a no-op. -/
theorem c5_noop_on_equal (st : LedState) (req : led_request_t) :
    (led_request_is_equal st.curr (led_request_sanitize req) = true →
      led_ctrl_start req st = st) ∧
    led_ctrl_start req (led_ctrl_start req st) = led_ctrl_start req st := by
  refine ⟨led_ctrl_start_noop req st, ?_⟩
  by_cases h : led_request_is_equal st.curr (led_request_sanitize req) = true
  · rw [led_ctrl_start_noop req st h]
    exact led_ctrl_start_noop req st h
  · have hf : led_request_is_equal st.curr (led_request_sanitize req) = false := by
      simpa using h
    apply led_ctrl_start_noop
    rw [led_ctrl_start_curr req st hf]
    exact (led_request_is_equal_iff _ _).mpr rfl

/-- C5 witness: resubmitting the initial sentinel request leaves the
initial state unchanged. -/
theorem c5_noop_on_equal_witness :
    led_ctrl_start led_ctrl_curr initialLedState = initialLedState ∧
    led_ctrl_start led_ctrl_curr (led_ctrl_start led_ctrl_curr initialLedState)
      = led_ctrl_start led_ctrl_curr initialLedState :=
  ⟨(c5_noop_on_equal initialLedState led_ctrl_curr).1 (by decide),
   (c5_noop_on_equal initialLedState led_ctrl_curr).2⟩

/-- C6: after sanitization, the style is OFF exactly when no channel of
the original request is positive (regardless of the supplied timing and
breathe fields); otherwise STATIC when a sanitized half-period is
non-positive; otherwise BREATHE when the sanitized breathe flag is set;
otherwise BLINK. -/
theorem c6_style_classification (req : led_request_t) :
    (led_request_get_style (led_request_sanitize req) = led_style_t.STYLE_OFF ↔
      (req.r ≤ 0 ∧ req.g ≤ 0 ∧ req.b ≤ 0)) ∧
    ((0 < req.r ∨ 0 < req.g ∨ 0 < req.b) →
      ((led_request_sanitize req).on_ms ≤ 0 ∨ (led_request_sanitize req).off_ms ≤ 0) →
      led_request_get_style (led_request_sanitize req) = led_style_t.STYLE_STATIC) ∧
    ((0 < req.r ∨ 0 < req.g ∨ 0 < req.b) →
      0 < (led_request_sanitize req).on_ms → 0 < (led_request_sanitize req).off_ms →
      (led_request_sanitize req).breathe = true →
      led_request_get_style (led_request_sanitize req) = led_style_t.STYLE_BREATH) ∧
    ((0 < req.r ∨ 0 < req.g ∨ 0 < req.b) →
      0 < (led_request_sanitize req).on_ms → 0 < (led_request_sanitize req).off_ms →
      (led_request_sanitize req).breathe = false →
      led_request_get_style (led_request_sanitize req) = led_style_t.STYLE_BLINK) := by
  simp only [led_request_get_style, led_request_sanitize,
    led_request_has_color_false_iff, LED_CTRL_BREATHING_DELAY, LED_CTRL_MIN_STEPS]
  norm_num
  split_ifs <;> simp_all

/-- C6 witness: a red 1000/1000 breathing request classifies as BREATHE,
and the same request with the color zeroed classifies as OFF. -/
theorem c6_style_classification_witness :
    led_request_get_style (led_request_sanitize breatheReq1000) = led_style_t.STYLE_BREATH ∧
    led_request_get_style (led_request_sanitize { breatheReq1000 with r := 0 })
      = led_style_t.STYLE_OFF := by
  refine ⟨(c6_style_classification breatheReq1000).2.2.1 (by decide) (by decide) (by decide) (by decide), ?_⟩
  exact ((c6_style_classification { breatheReq1000 with r := 0 }).1).mpr (by decide)

/-- C7 counterexample: a reachable state in which the stored step index
exceeds the stored step count - breathe at 1000/1000 (100 samples), let
the step timer fire 15 times, then restart onto 140/140 breathing whose
regenerated ramp has only 14 samples while the old index 15 is still
stored.  The "stored step index never exceeds the stored step count"
state invariant of the claim is false. -/
theorem c7_counterexample :
    Reachable staleIndexState ∧
    staleIndexState.breathe.steps < staleIndexState.breathe.step := by
  refine ⟨?_, by decide⟩
  exact runOps_reachable _ _ (runOps_reachable _ _ Reachable.init)

/-- C7 (amended: the in-bounds guarantee holds at sample-read time, not
as a state invariant on the stored index): in every reachable state, a
step-timer fire that reads a ramp sample reads it at an index strictly
below the stored sample count (the callback wraps a stale index to 0
before reading), and the index stored after the read is at most the
sample count. -/
theorem c7_step_index_in_bounds (st : LedState) (h : Reachable st)
    (st2 : LedState) (i : Nat) (hf : fire_step_timer st = (st2, some i)) :
    i < st.breathe.steps ∧ st2.breathe.step ≤ st2.breathe.steps := by
  have hok := reachable_rampOk st h
  unfold fire_step_timer at hf
  rcases hst : st.stepTimer with _ | k
  · rw [hst] at hf
    simp at hf
  · rw [hst] at hf
    cases k
    · -- breathing step callback: the read index is wrapped first
      have hsteps := hok.2 hst
      simp only [led_ctrl_step_cb, Prod.mk.injEq, Option.some.injEq] at hf
      obtain ⟨hst2, hi⟩ := hf
      subst hst2
      subst hi
      refine ⟨?_, ?_⟩
      · split_ifs <;> omega
      · show (if st.breathe.step ≥ st.breathe.steps then 0 else st.breathe.step) + 1
            ≤ st.breathe.steps
        split_ifs <;> omega
    · simp at hf

/-- C7 witness: in the reachable armed breathing state the fired step
callback reads index 0 of a positive sample count. -/
theorem c7_step_index_in_bounds_witness :
    (0 : Nat) < armedBreathingState.breathe.steps ∧
    (led_ctrl_step_cb armedBreathingState).1.breathe.step
      ≤ (led_ctrl_step_cb armedBreathingState).1.breathe.steps := by
  have h := c7_step_index_in_bounds armedBreathingState
    (runOps_reachable _ _ Reachable.init) (led_ctrl_step_cb armedBreathingState).1 0 (by decide)
  exact ⟨h.1, h.2⟩

/-- C8: `mce_hybris_indicator_set_pattern` (sysfs backend active) clamps
the timings into [0, 60000], zeroes both when either clamped value is
below 50, clamps the colors into [0, 255], submits the result through
`led_ctrl_start`, and returns true. -/
theorem c8_set_pattern (r g b ms_on ms_off : Int) (st : LedState) :
    mce_hybris_indicator_set_pattern r g b ms_on ms_off st =
      (true,
        led_ctrl_start
          { st.curr with
            r := max 0 (min 255 r)
            g := max 0 (min 255 g)
            b := max 0 (min 255 b)
            on_ms := if max 0 (min 60000 ms_on) < 50 ∨ max 0 (min 60000 ms_off) < 50
                     then 0 else max 0 (min 60000 ms_on)
            off_ms := if max 0 (min 60000 ms_on) < 50 ∨ max 0 (min 60000 ms_off) < 50
                      then 0 else max 0 (min 60000 ms_off) } st) := by
  unfold mce_hybris_indicator_set_pattern
  rw [clamp_to_range_eq 0 60000 ms_on (by norm_num),
      clamp_to_range_eq 0 60000 ms_off (by norm_num),
      clamp_to_range_eq 0 255 r (by norm_num),
      clamp_to_range_eq 0 255 g (by norm_num),
      clamp_to_range_eq 0 255 b (by norm_num)]

/-- C9: the initial current pattern state has all three channels equal
to -1, so a sanitized request with channels in [0, 255] can never
compare equal to it, and the very first such submission is not skipped:
it installs the sanitized request as the current pattern state. -/
theorem c9_initial_sentinel (req : led_request_t)
    (h1 : 0 ≤ req.r) (h2 : req.r ≤ 255) (h3 : 0 ≤ req.g) (h4 : req.g ≤ 255)
    (h5 : 0 ≤ req.b) (h6 : req.b ≤ 255) :
    led_ctrl_curr.r = -1 ∧ led_ctrl_curr.g = -1 ∧ led_ctrl_curr.b = -1 ∧
    led_request_is_equal led_ctrl_curr (led_request_sanitize req) = false ∧
    (led_ctrl_start req initialLedState).curr = led_request_sanitize req := by
  have hr : (led_request_sanitize req).r = req.r := (sanitize_preserves_rgb_level req).1
  have hne : led_request_is_equal led_ctrl_curr (led_request_sanitize req) = false := by
    simp only [led_request_is_equal, Bool.and_eq_false_iff, decide_eq_false_iff_not]
    left; left; left; left; left; left
    rw [hr]
    simp [led_ctrl_curr]
    omega
  refine ⟨rfl, rfl, rfl, hne, ?_⟩
  exact led_ctrl_start_curr req initialLedState hne

/-- C9 witness: the first red breathing request is not skipped on the
initial state. -/
theorem c9_initial_sentinel_witness :
    led_request_is_equal led_ctrl_curr (led_request_sanitize breatheReq1000) = false ∧
    (led_ctrl_start breatheReq1000 initialLedState).curr = led_request_sanitize breatheReq1000 := by
  have h := c9_initial_sentinel breatheReq1000 (by decide) (by decide) (by decide)
    (by decide) (by decide) (by decide)
  exact ⟨h.2.2.2.1, h.2.2.2.2⟩

/-- C10: sanitization is idempotent, a sanitized request has a positive
on-period exactly when it has a positive off-period, and a sanitized
breathing request has both half-periods at least 140 ms. -/
theorem c10_sanitize_idempotent (req : led_request_t) :
    led_request_sanitize (led_request_sanitize req) = led_request_sanitize req ∧
    (0 < (led_request_sanitize req).on_ms ↔ 0 < (led_request_sanitize req).off_ms) ∧
    ((led_request_sanitize req).breathe = true →
      140 ≤ (led_request_sanitize req).on_ms ∧ 140 ≤ (led_request_sanitize req).off_ms) :=
  sanitize_props req

/-- C10 witness: the 1000/1000 breathing request is a fixed point of
sanitization with both half-periods at least 140. -/
theorem c10_sanitize_idempotent_witness :
    led_request_sanitize (led_request_sanitize breatheReq1000) = led_request_sanitize breatheReq1000 ∧
    140 ≤ (led_request_sanitize breatheReq1000).on_ms ∧
    140 ≤ (led_request_sanitize breatheReq1000).off_ms := by
  have h := c10_sanitize_idempotent breatheReq1000
  exact ⟨h.1, h.2.2 (by decide)⟩
